import Mathlib

/-!
Verification development for the livekit-telephony voice-call orchestration
layer.  The Python sources are shallowly embedded: pure functions become Lean
functions, the per-call orchestration of `agent_entrypoint` becomes a
trace-producing function over an explicit environment of datastore oracles,
and SQL effects become explicit state passing over list-modelled tables.
Machine-irrelevant I/O (logging, audio transport) is elided; every branch the
embedded code takes mirrors the corresponding Python control flow.
-/

namespace LivekitTelephony

/-! ## Credit cost formula (database/db_queries.py, `calculate_credits_used`)

The Python source computes `total_tokens / tokens_per_credit` with binary64
floating-point division and takes the ceiling with `-(-x // 1)`.  Binary64
semantics are not embeddable here; the definition below is the integer-exact
formula the specification mandates ("integer-exact ceiling division, not
floating-point rounding"), with the default arguments `tokens_per_credit = 70`
and `minimum_credit = 20` inlined.  Tier multipliers: ×1.5 = 3/2 for
tokens > 1000 (so the operand is 3n/140), ×1.2 = 6/5 for 500 < tokens ≤ 1000
(operand 6n/350), and no multiplier otherwise (operand n/70). -/

/-- Exact ceiling division on naturals: `ceilDivNat a b = ⌈a / b⌉` for `b > 0`. -/
def ceilDivNat (a b : Nat) : Nat := (a + b - 1) / b

/-- Modelled from the spec: the integer-exact credit formula that
`calculate_credits_used` is required to implement (the source instead uses
binary64 floats, which this embedding cannot represent). -/
def calculate_credits_used_spec (total_tokens : Nat) : Nat :=
  let cost :=
    if total_tokens > 1000 then ceilDivNat (3 * total_tokens) 140
    else if total_tokens > 500 then ceilDivNat (6 * total_tokens) 350
    else ceilDivNat total_tokens 70
  max cost 20

/-- `ceilDivNat` agrees with the rational ceiling, so the tiered formula above
really is the "integer-exact (rational) ceiling division" of the claim. -/
lemma ceilDivNat_eq_ceil (a b : Nat) (hb : 0 < b) :
    ceilDivNat a b = ⌈(a : ℚ) / (b : ℚ)⌉₊ := by
  have hbQ : (0 : ℚ) < (b : ℚ) := by exact_mod_cast hb
  apply le_antisymm
  · -- (a + b - 1) / b ≤ ⌈a/b⌉₊, since a ≤ b * ⌈a/b⌉₊
    have hle : (a : ℚ) ≤ (b : ℚ) * (⌈(a : ℚ) / (b : ℚ)⌉₊ : ℚ) := by
      have := Nat.le_ceil ((a : ℚ) / (b : ℚ))
      calc (a : ℚ) = (b : ℚ) * ((a : ℚ) / (b : ℚ)) := by field_simp
        _ ≤ (b : ℚ) * (⌈(a : ℚ) / (b : ℚ)⌉₊ : ℚ) := by
            exact mul_le_mul_of_nonneg_left this (le_of_lt hbQ)
    have hleN : a ≤ b * ⌈(a : ℚ) / (b : ℚ)⌉₊ := by exact_mod_cast hle
    have : a + b - 1 ≤ b * ⌈(a : ℚ) / (b : ℚ)⌉₊ + (b - 1) := by omega
    exact (Nat.div_le_iff_le_mul_add_pred hb).mpr this
  · -- ⌈a/b⌉₊ ≤ (a + b - 1) / b, since a/b ≤ (a + b - 1) / b as rationals
    apply Nat.ceil_le.mpr
    rw [div_le_iff₀ hbQ]
    have hdm := Nat.div_add_mod (a + b - 1) b
    have hmod := Nat.mod_lt (a + b - 1) hb
    have h2 : a ≤ b * ceilDivNat a b := by
      unfold ceilDivNat
      omega
    calc (a : ℚ) ≤ ((b * ceilDivNat a b : Nat) : ℚ) := by exact_mod_cast h2
      _ = (ceilDivNat a b : ℚ) * (b : ℚ) := by push_cast; ring

/-- C1: the integer-exact credit formula returns `max(⌈tokens/70⌉, 20)` for
tokens ≤ 500, `max(⌈(tokens/70)·1.2⌉, 20)` for 500 < tokens ≤ 1000 and
`max(⌈(tokens/70)·1.5⌉, 20)` for tokens > 1000, with the rational (not
floating-point) ceiling; in particular 70 ↦ 20, 1400 ↦ 30, 5000 ↦ 108.  The
last conjunct evaluates the formula at the input on which the source's
binary64 computation under-charges (the source returns 214285714285715
there). -/
theorem calculate_credits_used_spec_correct :
    (∀ n : Nat, n ≤ 500 →
        calculate_credits_used_spec n = max ⌈(n : ℚ) / 70⌉₊ 20) ∧
    (∀ n : Nat, 500 < n → n ≤ 1000 →
        calculate_credits_used_spec n = max ⌈((n : ℚ) / 70) * (6 / 5)⌉₊ 20) ∧
    (∀ n : Nat, 1000 < n →
        calculate_credits_used_spec n = max ⌈((n : ℚ) / 70) * (3 / 2)⌉₊ 20) ∧
    calculate_credits_used_spec 70 = 20 ∧
    calculate_credits_used_spec 1400 = 30 ∧
    calculate_credits_used_spec 5000 = 108 ∧
    calculate_credits_used_spec 10000000000000034 = 214285714285716 := by
  refine ⟨?_, ?_, ?_, by decide, by decide, by decide, by decide⟩
  · intro n hn
    have h1 : ¬ n > 1000 := by omega
    have h2 : ¬ n > 500 := by omega
    simp only [calculate_credits_used_spec, h1, h2, if_false]
    rw [ceilDivNat_eq_ceil n 70 (by norm_num)]
    norm_num
  · intro n hn1 hn2
    have h1 : ¬ n > 1000 := by omega
    simp only [calculate_credits_used_spec, h1, hn1, if_false, if_true]
    rw [ceilDivNat_eq_ceil (6 * n) 350 (by norm_num)]
    congr 2
    push_cast
    ring
  · intro n hn
    simp only [calculate_credits_used_spec, hn, if_true]
    rw [ceilDivNat_eq_ceil (3 * n) 140 (by norm_num)]
    congr 2
    push_cast
    ring

/-- Witness for C1: the first tier applied at the concrete input 70. -/
theorem calculate_credits_used_spec_correct_witness :
    calculate_credits_used_spec 70 = max ⌈(70 : ℚ) / 70⌉₊ 20 :=
  calculate_credits_used_spec_correct.1 70 (by norm_num)

/-! ## Job metadata and its resolution (unified_agent.py, `agent_entrypoint`)

The job metadata payload is a JSON object; the keys the orchestrator reads
are embedded as optional fields (string-encoded integers are represented
already coerced, as `int(...)` does in the source).  `isoutBoundCall` is read
only for truthiness, so it is a `Bool` (absent key = falsy = `false`). -/

structure Metadata where
  customerId : Option Int
  knowledgebaseId : Option Int
  environment : Option String
  llmName : Option String
  voice : Option String
  isoutBoundCall : Bool
deriving Repr, DecidableEq

/-- The empty payload `json.loads("{}")`. -/
def Metadata.empty : Metadata :=
  { customerId := none, knowledgebaseId := none, environment := none,
    llmName := none, voice := none, isoutBoundCall := false }

/-- `fetch_metadata_by_trunk_phone_number` as it stands in
database/db_queries.py: the documented database lookup is commented out and
the function returns a hard-coded dict containing only the key
`llmName = "openai/gpt-oss-20b"`, for every trunk phone number. -/
def fetch_metadata_by_trunk_phone_number (_trunk_phone_number : String) : Metadata :=
  { customerId := none, knowledgebaseId := none, environment := none,
    llmName := some "openai/gpt-oss-20b", voice := none, isoutBoundCall := false }

/-- Python `int(x or d)` applied to an optional integer field: `None` and the
falsy value `0` both fall back to the default. -/
def orDefaultInt (x : Option Int) (d : Int) : Int :=
  match x with
  | some v => if v = 0 then d else v
  | none => d

/-- The metadata-resolution step of `agent_entrypoint` (lines 72–91): an
outbound-flagged payload is kept as-is; otherwise a SIP participant's trunk
phone number triggers `fetch_metadata_by_trunk_phone_number`, whose result
replaces the payload.  The second component records whether the trunk lookup
ran. -/
def resolve_metadata (metadata : Metadata) (participantIsSip : Bool)
    (sipTrunkPhoneNumber : Option String) : Metadata × Bool :=
  let trunkPhoneNumber := if participantIsSip then sipTrunkPhoneNumber else none
  if metadata.isoutBoundCall then (metadata, false)
  else
    match trunkPhoneNumber with
    | some t => (fetch_metadata_by_trunk_phone_number t, true)
    | none => (metadata, false)

/-! ## Tenant configuration and the credit gate -/

/-- A `chat_bot` row, restricted to the columns the orchestrator reads. -/
structure ChatBot where
  chat_bot_id : Int
  customer_id : Int
  nspace : Option String
  index_name : Option String
deriving Repr, DecidableEq

structure CreditCheck where
  has_credits : Bool
  current_credits : Int
deriving Repr, DecidableEq

/-- `check_customer_credits` (database/db_queries.py lines 99–125).  The
datastore read is an oracle returning either an error (any connectivity/SQL
exception) or the optional `credits` value of the customer's row.  The
source's `try`/`except` catches every exception and returns
`{"has_credits": False, "current_credits": 0}`, so the embedding is total. -/
def check_customer_credits (fetch : Int → Except Unit (Option Int))
    (customer_id : Int) (minimum_credits : Int) : CreditCheck :=
  match fetch customer_id with
  | .error _ => { has_credits := false, current_credits := 0 }
  | .ok row =>
      let current_credits := match row with | some c => c | none => 0
      { has_credits := decide (minimum_credits ≤ current_credits),
        current_credits := current_credits }

/-! ## The per-call orchestration sequence -/

/-- Observable steps of `agent_entrypoint`, in program order. -/
inductive Ev
  | connect
  | waitParticipant
  | fetchMetadataByTrunk (trunk : String)
  | getChatBot (id : Int)
  | creditCheck (customer_id : Int)
  | sleepBriefly
  | disconnect
  | populateRuntime
  | getCustomPrompt
  | ragSummary
  | fetchMcpUrls
  | createProviders
  | sessionStart
  | greeting
deriving Repr, DecidableEq

/-- The environment a single call runs against: the job payload, the joining
participant's SIP attributes, and oracles for every datastore access the
orchestrator performs.  `get_chat_bot_by_id` swallows its own errors into
`None`, so its oracle is already `Option`; `get_agent_custom_prompt`
re-raises, so its oracle may error. -/
structure Env where
  payload : Metadata
  participantIsSip : Bool
  sipTrunkPhoneNumber : Option String
  roomPresent : Bool
  getChatBot : Int → Option ChatBot
  fetchCredits : Int → Except Unit (Option Int)
  customPrompt : Int → Except Unit (Option String)

/-- Metadata actually used by the call, after the resolution step. -/
def resolvedMetadata (env : Env) : Metadata :=
  (resolve_metadata env.payload env.participantIsSip env.sipTrunkPhoneNumber).1

/-- `int(metadata.get("customerId") or 1)`. -/
def resolvedCustomerId (env : Env) : Int :=
  orDefaultInt (resolvedMetadata env).customerId 1

/-- `int(metadata.get("knowledgebaseId") or 1)`. -/
def resolvedKnowledgebaseId (env : Env) : Int :=
  orDefaultInt (resolvedMetadata env).knowledgebaseId 1

/-- `agent_entrypoint` (unified_agent.py lines 65–360) as a trace-producing
function: the ordered list of observable steps plus the overall outcome
(`.error` models an uncaught Python exception).  Post-session event handlers
are not part of the linear sequence and are modelled separately; the trace
ends at the greeting.  The `try`/`except` around the credit gate is embedded
faithfully: since `check_customer_credits` is total, only its `try` body is
reachable. -/
def trunkLookupEvents (trunk : Option String) (outbound : Bool) : List Ev :=
  match trunk, outbound with
  | some t, false => [Ev.fetchMetadataByTrunk t]
  | _, _ => []

def agent_entrypoint (env : Env) : List Ev × Except String Unit :=
  let evs0 := [Ev.connect, Ev.waitParticipant]
  let rm := resolve_metadata env.payload env.participantIsSip env.sipTrunkPhoneNumber
  let metadata := rm.1
  let evs1 := evs0 ++
    trunkLookupEvents (if env.participantIsSip then env.sipTrunkPhoneNumber else none)
      env.payload.isoutBoundCall
  let customer_id := orDefaultInt metadata.customerId 1
  let knowledgebase_id := orDefaultInt metadata.knowledgebaseId 1
  let evs2 := evs1 ++ [Ev.getChatBot knowledgebase_id]
  match env.getChatBot knowledgebase_id with
  | none =>
      (evs2, .error ("Chatbot not found for id: " ++ toString knowledgebase_id))
  | some _existing_chatbot =>
      let evs3 := evs2 ++ [Ev.creditCheck customer_id]
      let credit_check := check_customer_credits env.fetchCredits customer_id 20
      if credit_check.has_credits = false then
        -- graceful decline: sleep, disconnect (room is guarded), return
        let evs4 := evs3 ++ [Ev.sleepBriefly] ++
          (if env.roomPresent then [Ev.disconnect] else [])
        (evs4, .ok ())
      else
        let evs5 := evs3 ++ [Ev.populateRuntime, Ev.getCustomPrompt]
        match env.customPrompt knowledgebase_id with
        | .error _ => (evs5, .error "get_agent_custom_prompt raised")
        | .ok _custom_prompt =>
            let evs6 := evs5 ++ [Ev.ragSummary, Ev.fetchMcpUrls,
              Ev.createProviders, Ev.sessionStart, Ev.greeting]
            (evs6, .ok ())

lemma mem_trunkLookupEvents_iff (ev : Ev) (t : Option String) (b : Bool) :
    ev ∈ trunkLookupEvents t b ↔
      ∃ s, t = some s ∧ b = false ∧ ev = Ev.fetchMetadataByTrunk s := by
  cases t <;> cases b <;> simp [trunkLookupEvents]

/-- The concrete inbound SIP call used to exhibit the stubbed trunk
resolution: the caller-supplied payload names customer 7 and knowledge base 9,
the participant is a SIP participant on trunk "+15551234567", and the
configuration tables do know a chat bot for that tenant. -/
def payloadC2 : Metadata :=
  { Metadata.empty with
    customerId := some 7
    knowledgebaseId := some 9
    environment := some "open ai"
    voice := some "nova" }

def envC2 : Env :=
  { payload := payloadC2
    participantIsSip := true
    sipTrunkPhoneNumber := some "+15551234567"
    roomPresent := true
    getChatBot := fun i => if i = 9 then some ⟨9, 7, some "ns", some "idx"⟩ else none
    fetchCredits := fun _ => .ok (some 100)
    customPrompt := fun _ => .ok none }

/-- C2: the outbound half of the claim holds (an outbound-flagged payload is
used verbatim, no trunk lookup), but the inbound half does not: the active
body of `fetch_metadata_by_trunk_phone_number` is a hard-coded stub that
ignores the trunk phone number and the configuration tables, returning only
`llmName`.  On the concrete inbound call `envC2` the payload is superseded by
that stub, so customer id and knowledge-base id fall back to the defaults 1/1
instead of being resolved from the tables. -/
theorem trunk_metadata_resolution_is_stubbed :
    (∀ (m : Metadata) (sip : Bool) (t : Option String),
      resolve_metadata { m with isoutBoundCall := true } sip t =
        ({ m with isoutBoundCall := true }, false)) ∧
    (∀ (m : Metadata) (t : String),
      resolve_metadata { m with isoutBoundCall := false } true (some t) =
        (fetch_metadata_by_trunk_phone_number t, true)) ∧
    (∀ t₁ t₂ : String,
      fetch_metadata_by_trunk_phone_number t₁ =
        fetch_metadata_by_trunk_phone_number t₂) ∧
    (∀ t : String,
      (fetch_metadata_by_trunk_phone_number t).customerId = none ∧
      (fetch_metadata_by_trunk_phone_number t).knowledgebaseId = none ∧
      (fetch_metadata_by_trunk_phone_number t).environment = none ∧
      (fetch_metadata_by_trunk_phone_number t).voice = none ∧
      (fetch_metadata_by_trunk_phone_number t).llmName =
        some "openai/gpt-oss-20b") ∧
    resolvedCustomerId envC2 = 1 ∧
    resolvedKnowledgebaseId envC2 = 1 :=
  ⟨fun _ _ _ => rfl, fun _ _ => rfl, fun _ _ => rfl,
    fun _ => ⟨rfl, rfl, rfl, rfl, rfl⟩, rfl, rfl⟩

/-- C3: when the startup credit gate reports insufficient credits, the call
sleeps briefly, disconnects the room, and returns normally; the session-start
step never appears in the trace. -/
theorem insufficient_credits_declines_without_session (env : Env) (cb : ChatBot)
    (hroom : env.roomPresent = true)
    (hcb : env.getChatBot (resolvedKnowledgebaseId env) = some cb)
    (hcred : (check_customer_credits env.fetchCredits (resolvedCustomerId env) 20).has_credits
      = false) :
    (agent_entrypoint env).2 = .ok () ∧
    Ev.sleepBriefly ∈ (agent_entrypoint env).1 ∧
    Ev.disconnect ∈ (agent_entrypoint env).1 ∧
    Ev.sessionStart ∉ (agent_entrypoint env).1 := by
  simp only [resolvedKnowledgebaseId, resolvedCustomerId, resolvedMetadata] at hcb hcred
  simp only [agent_entrypoint, hcb, hcred, hroom]
  refine ⟨by simp, by simp, by simp, by simp [mem_trunkLookupEvents_iff]⟩

/-- Witness environment for the graceful-decline and fail-closed paths: the
chat bot exists, but the customer's balance (5) is below the floor of 20. -/
def envC3 : Env :=
  { payload := Metadata.empty
    participantIsSip := false
    sipTrunkPhoneNumber := none
    roomPresent := true
    getChatBot := fun _ => some ⟨1, 1, some "ns", some "idx"⟩
    fetchCredits := fun _ => .ok (some 5)
    customPrompt := fun _ => .ok none }

/-- Witness for C3. -/
theorem insufficient_credits_declines_without_session_witness :
    (agent_entrypoint envC3).2 = .ok () ∧
    Ev.sleepBriefly ∈ (agent_entrypoint envC3).1 ∧
    Ev.disconnect ∈ (agent_entrypoint envC3).1 ∧
    Ev.sessionStart ∉ (agent_entrypoint envC3).1 :=
  insufficient_credits_declines_without_session envC3 ⟨1, 1, some "ns", some "idx"⟩
    rfl rfl (by decide)

/-- C9: when no ChatBot row resolves for the knowledge-base id, the
entrypoint raises before the credit gate, prompt assembly, provider selection
or session start is reached; and in general no run ever reaches session
start without a resolved ChatBot. -/
theorem missing_chatbot_aborts_before_gate (env : Env)
    (hcb : env.getChatBot (resolvedKnowledgebaseId env) = none) :
    (agent_entrypoint env).2 =
      .error ("Chatbot not found for id: " ++ toString (resolvedKnowledgebaseId env)) ∧
    (∀ c, Ev.creditCheck c ∉ (agent_entrypoint env).1) ∧
    Ev.getCustomPrompt ∉ (agent_entrypoint env).1 ∧
    Ev.ragSummary ∉ (agent_entrypoint env).1 ∧
    Ev.createProviders ∉ (agent_entrypoint env).1 ∧
    Ev.sessionStart ∉ (agent_entrypoint env).1 ∧
    (∀ env' : Env, Ev.sessionStart ∈ (agent_entrypoint env').1 →
      ∃ cb, env'.getChatBot (resolvedKnowledgebaseId env') = some cb) := by
  have hcb' := hcb
  simp only [resolvedKnowledgebaseId, resolvedMetadata] at hcb'
  refine ?_
  have hgen : ∀ env' : Env, Ev.sessionStart ∈ (agent_entrypoint env').1 →
      ∃ cb, env'.getChatBot (resolvedKnowledgebaseId env') = some cb := by
    intro env' hmem
    rcases hcb2 : env'.getChatBot (resolvedKnowledgebaseId env') with _ | cb2
    · exfalso
      have hcb2' := hcb2
      simp only [resolvedKnowledgebaseId, resolvedMetadata] at hcb2'
      simp only [agent_entrypoint, hcb2'] at hmem
      simp [mem_trunkLookupEvents_iff] at hmem
    · exact ⟨cb2, rfl⟩
  simp only [agent_entrypoint, hcb']
  refine ⟨by simp [resolvedKnowledgebaseId, resolvedMetadata],
    fun c => by simp [mem_trunkLookupEvents_iff],
    by simp [mem_trunkLookupEvents_iff], by simp [mem_trunkLookupEvents_iff],
    by simp [mem_trunkLookupEvents_iff], by simp [mem_trunkLookupEvents_iff],
    hgen⟩

/-- Witness environment for C9: the chat-bot lookup finds nothing. -/
def envC9 : Env :=
  { payload := Metadata.empty
    participantIsSip := false
    sipTrunkPhoneNumber := none
    roomPresent := true
    getChatBot := fun _ => none
    fetchCredits := fun _ => .ok (some 100)
    customPrompt := fun _ => .ok none }

/-- A run on which the session does start (chat bot found, balance 100);
used to instantiate the session-start invariant in the C9 witness. -/
def envOk : Env :=
  { payload := Metadata.empty
    participantIsSip := false
    sipTrunkPhoneNumber := none
    roomPresent := true
    getChatBot := fun _ => some ⟨1, 1, some "ns", some "idx"⟩
    fetchCredits := fun _ => .ok (some 100)
    customPrompt := fun _ => .ok none }

/-- Witness for C9. -/
theorem missing_chatbot_aborts_before_gate_witness :
    (agent_entrypoint envC9).2 =
      .error ("Chatbot not found for id: " ++ toString (resolvedKnowledgebaseId envC9)) ∧
    Ev.creditCheck 1 ∉ (agent_entrypoint envC9).1 ∧
    Ev.getCustomPrompt ∉ (agent_entrypoint envC9).1 ∧
    Ev.ragSummary ∉ (agent_entrypoint envC9).1 ∧
    Ev.createProviders ∉ (agent_entrypoint envC9).1 ∧
    Ev.sessionStart ∉ (agent_entrypoint envC9).1 ∧
    (∃ cb, envOk.getChatBot (resolvedKnowledgebaseId envOk) = some cb) :=
  have h := missing_chatbot_aborts_before_gate envC9 rfl
  ⟨h.1, h.2.1 1, h.2.2.1, h.2.2.2.1, h.2.2.2.2.1, h.2.2.2.2.2.1,
    h.2.2.2.2.2.2 envOk (by decide)⟩

/-- C10: the credit check never raises — a datastore error and a missing
`customer_credit` row both yield `{has_credits := false, current_credits := 0}`
— and an erroring datastore therefore drives the entrypoint down the same
graceful-decline (disconnect, no session) path as a plain insufficient
balance; the entrypoint's except-branch for a throwing credit check cannot be
reached through datastore errors, which is reflected in the embedded
`check_customer_credits` being a total function. -/
theorem credit_check_fails_closed (env : Env) (cb : ChatBot)
    (hroom : env.roomPresent = true)
    (hcb : env.getChatBot (resolvedKnowledgebaseId env) = some cb)
    (hfetch : ∀ c, env.fetchCredits c = .error ()) :
    (∀ fetch : Int → Except Unit (Option Int), ∀ c m : Int, fetch c = .error () →
        check_customer_credits fetch c m = ⟨false, 0⟩) ∧
    (∀ fetch : Int → Except Unit (Option Int), ∀ c m : Int, 0 < m → fetch c = .ok none →
        check_customer_credits fetch c m = ⟨false, 0⟩) ∧
    agent_entrypoint env =
      agent_entrypoint { env with fetchCredits := fun _ => .ok none } ∧
    (agent_entrypoint env).2 = .ok () ∧
    Ev.disconnect ∈ (agent_entrypoint env).1 ∧
    Ev.sessionStart ∉ (agent_entrypoint env).1 := by
  have hcb' := hcb
  simp only [resolvedKnowledgebaseId, resolvedMetadata] at hcb'
  refine ⟨?_, ?_, ?_, ?_, ?_, ?_⟩
  · intro fetch c m hf
    simp [check_customer_credits, hf]
  · intro fetch c m hm hf
    simp only [check_customer_credits, hf]
    simp [decide_eq_false (by omega : ¬ m ≤ 0)]
  · simp only [agent_entrypoint]
    simp [hcb', check_customer_credits, hfetch]
  · simp only [agent_entrypoint, hcb']
    simp [check_customer_credits, hfetch]
  · simp only [agent_entrypoint, hcb', hroom]
    simp [check_customer_credits, hfetch]
  · simp only [agent_entrypoint, hcb']
    simp [check_customer_credits, hfetch, mem_trunkLookupEvents_iff]

/-- Witness environment for C10: the datastore errors on every credit read. -/
def envC10 : Env :=
  { payload := Metadata.empty
    participantIsSip := false
    sipTrunkPhoneNumber := none
    roomPresent := true
    getChatBot := fun _ => some ⟨1, 1, some "ns", some "idx"⟩
    fetchCredits := fun _ => .error ()
    customPrompt := fun _ => .ok none }

/-- Witness for C10. -/
theorem credit_check_fails_closed_witness :
    check_customer_credits (fun _ => .error ()) 1 20 = ⟨false, 0⟩ ∧
    check_customer_credits (fun _ => .ok none) 1 20 = ⟨false, 0⟩ ∧
    agent_entrypoint envC10 =
      agent_entrypoint { envC10 with fetchCredits := fun _ => .ok none } ∧
    (agent_entrypoint envC10).2 = .ok () ∧
    Ev.disconnect ∈ (agent_entrypoint envC10).1 ∧
    Ev.sessionStart ∉ (agent_entrypoint envC10).1 :=
  have h := credit_check_fails_closed envC10 ⟨1, 1, some "ns", some "idx"⟩ rfl rfl
    (fun _ => rfl)
  ⟨h.1 (fun _ => .error ()) 1 20 rfl, h.2.1 (fun _ => .ok none) 1 20 (by norm_num) rfl,
    h.2.2.1, h.2.2.2.1, h.2.2.2.2.1, h.2.2.2.2.2⟩

/-! ## Provider selection (unified_agent.py, `create_llm_instance`,
`create_tts_instance`, `create_stt_instance`)

The three closures read `metadata.get("environment", "groq")` (the default
applies only when the key is absent) and lower-case it.  Construction
exceptions inside the `try` body are modelled by a Boolean `ctorThrows`
parameter: when the selected constructor raises, the `except` handler's
hard-coded instance is returned (the handler's own constructor is modelled as
non-throwing).  Provider instances are embedded keeping only the model/voice
arguments that vary; fixed arguments (temperature, tool choice, parallel tool
calls) are constants in the source and elided. -/

inductive LLMProvider
  | groq (model : String)
  | google (model : String)
  | openai (model : String)
deriving Repr, DecidableEq

inductive TTSProvider
  | cartesia (voice : String)
  | openai (voice : String)
  | groq (voice : String) (model : String)
deriving Repr, DecidableEq

inductive STTProvider
  | openai
deriving Repr, DecidableEq

/-- Python `str.lower()`, embedded as a character map over the string's
character list (the environment tags involved are ASCII). -/
def strToLower (s : String) : String := ⟨s.data.map Char.toLower⟩

/-- Python `x or d` on an optional string: `None` and `""` are falsy. -/
def orDefaultStr (x : Option String) (d : String) : String :=
  match x with
  | some s => if s = "" then d else s
  | none => d

def arabicVoices : List String :=
  ["Ahmad-PlayAI", "Amira-PlayAI", "Khalid-PlayAI", "Nasser-PlayAI"]

/-- `"playai-tts-arabic" if voice in [...] else "playai-tts"`, applied to the
raw (pre-default) voice value; `None` is not in the list. -/
def groqTtsModel (voice : Option String) : String :=
  match voice with
  | some v => if arabicVoices.contains v then "playai-tts-arabic" else "playai-tts"
  | none => "playai-tts"

/-- `create_llm_instance` (lines 181–208).  The `if`/`elif` chain has no
`else`: an unrecognized environment tag falls off the end of the `try` body
and the Python function returns `None`. -/
def create_llm_instance (metaEnvironment metaLlmName : Option String)
    (ctorThrows : Bool) : Option LLMProvider :=
  let environment := strToLower (metaEnvironment.getD "groq")
  let model_name := metaLlmName
  if environment = "groq" then
    if ctorThrows then some (.openai (orDefaultStr model_name "gpt-4o-mini"))
    else some (.groq (orDefaultStr model_name "openai/gpt-oss-20b"))
  else if environment = "gemini" then
    if ctorThrows then some (.openai (orDefaultStr model_name "gpt-4o-mini"))
    else some (.google (orDefaultStr model_name "gemini-2.5-flash"))
  else if environment = "open ai" then
    if ctorThrows then some (.openai (orDefaultStr model_name "gpt-4o-mini"))
    else some (.openai (orDefaultStr model_name "gpt-5"))
  else
    none

/-- `create_tts_instance` (lines 211–233): `gemini` → cartesia, `open ai` →
openai, every other tag → the groq `else` branch; any construction exception
→ `openai.TTS(voice="alloy")`. -/
def create_tts_instance (metaEnvironment metaVoice : Option String)
    (ctorThrows : Bool) : TTSProvider :=
  let environment := strToLower (metaEnvironment.getD "groq")
  let voice := metaVoice
  if ctorThrows then .openai "alloy"
  else if environment = "gemini" then
    .cartesia (orDefaultStr voice "f786b574-daa5-4673-aa0c-cbe3e8534c02")
  else if environment = "open ai" then
    .openai (orDefaultStr voice "alloy")
  else
    .groq (orDefaultStr voice "Fritz-PlayAI") (groqTtsModel voice)

/-- `create_stt_instance` (lines 237–248): every branch, including the
`except` handler, returns `openai.STT()`. -/
def create_stt_instance (_metaEnvironment : Option String)
    (_ctorThrows : Bool) : STTProvider :=
  .openai

/-- Counterexample for C4: for the unrecognized environment tag "anthropic"
(and no construction exception, since no constructor is even attempted),
`create_llm_instance` returns no provider at all — not a fixed fallback. -/
theorem create_llm_instance_none_on_unrecognized_tag :
    create_llm_instance (some "anthropic") none false = none ∧
    create_llm_instance (some "anthropic") none true = none := by
  exact ⟨by decide, by decide⟩

/-- C4 (amended): `create_stt_instance` always returns a provider;
`create_tts_instance` always returns a provider — the fixed "alloy" fallback
on a construction exception, and the groq default branch (default voice
"Fritz-PlayAI") for unrecognized tags; `create_llm_instance` returns the
hard-coded last-resort ("gpt-4o-mini"-default) whenever a recognized branch's
constructor throws, but returns `None` (no provider) for an unrecognized
environment tag. -/
theorem provider_fallbacks_characterized :
    (∀ env : Option String, ∀ t : Bool, create_stt_instance env t = .openai) ∧
    (∀ env voice : Option String, create_tts_instance env voice true = .openai "alloy") ∧
    (∀ env voice : Option String,
        strToLower (env.getD "groq") ≠ "gemini" →
        strToLower (env.getD "groq") ≠ "open ai" →
        create_tts_instance env voice false =
          .groq (orDefaultStr voice "Fritz-PlayAI") (groqTtsModel voice)) ∧
    (∀ env model : Option String,
        (strToLower (env.getD "groq") = "groq" ∨ strToLower (env.getD "groq") = "gemini" ∨
          strToLower (env.getD "groq") = "open ai") →
        create_llm_instance env model true = some (.openai (orDefaultStr model "gpt-4o-mini"))) ∧
    (∀ env model : Option String, ∀ t : Bool,
        strToLower (env.getD "groq") ≠ "groq" →
        strToLower (env.getD "groq") ≠ "gemini" →
        strToLower (env.getD "groq") ≠ "open ai" →
        create_llm_instance env model t = none) := by
  refine ⟨fun env t => rfl, fun env voice => rfl, ?_, ?_, ?_⟩
  · intro env voice h1 h2
    simp [create_tts_instance, h1, h2]
  · intro env model h
    rcases h with h | h | h <;> simp [create_llm_instance, h]
  · intro env model t h1 h2 h3
    simp [create_llm_instance, h1, h2, h3]

/-- Witness for C4 (amended), at concrete inputs: the unrecognized tag
"anthropic" and the recognized tag "groq". -/
theorem provider_fallbacks_characterized_witness :
    create_stt_instance (some "anthropic") false = .openai ∧
    create_tts_instance (some "anthropic") none true = .openai "alloy" ∧
    create_tts_instance (some "anthropic") none false = .groq "Fritz-PlayAI" "playai-tts" ∧
    create_llm_instance (some "groq") none true = some (.openai "gpt-4o-mini") ∧
    create_llm_instance (some "anthropic") (some "m") false = none :=
  have h := provider_fallbacks_characterized
  ⟨h.1 (some "anthropic") false,
    h.2.1 (some "anthropic") none,
    h.2.2.1 (some "anthropic") none (by decide) (by decide),
    h.2.2.2.1 (some "groq") none (Or.inl (by decide)),
    h.2.2.2.2 (some "anthropic") (some "m") false (by decide) (by decide) (by decide)⟩

/-! ## Realtime-information upsert (db_queries.py, lines 225–259)

The table is a list of rows.  The UPDATE rewrites `info_value` on every row
matching `(customer_id, info_key)`, and the INSERT runs only when
`cursor.rowcount == 0`.  The connection (db_manager.py) is opened without the
CLIENT_FOUND_ROWS flag, so MySQL reports the number of rows the UPDATE
actually *changed*: a matching row that already stores the new value does not
count, and in that case the INSERT runs anyway and appends a duplicate
`(customer_id, info_key)` row (the schema enforces no uniqueness). -/

structure RealtimeInfoRow where
  customer_id : Int
  info_key : String
  info_value : String
deriving Repr, DecidableEq

/-- The `WHERE customer_id = %s AND info_key = %s` predicate. -/
def rtRowMatches (customer_id : Int) (key : String) (r : RealtimeInfoRow) : Bool :=
  r.customer_id == customer_id && r.info_key == key

/-- A row the UPDATE actually changes: it matches the WHERE clause and stores
a different value.  `cursor.rowcount` counts exactly these rows. -/
def rtRowChanged (customer_id : Int) (key value : String)
    (r : RealtimeInfoRow) : Bool :=
  rtRowMatches customer_id key r && r.info_value != value

/-- The effect of the UPDATE statement on one row. -/
def rtApplyUpdate (customer_id : Int) (key value : String)
    (r : RealtimeInfoRow) : RealtimeInfoRow :=
  if rtRowMatches customer_id key r then { r with info_value := value } else r

/-- `upsert_customer_realtime_information`: UPDATE first; INSERT exactly one
new row when the UPDATE *changed* nothing (`cursor.rowcount == 0` under
MySQL's default changed-rows semantics). -/
def upsert_customer_realtime_information (table : List RealtimeInfoRow)
    (customer_id : Int) (key value : String) : List RealtimeInfoRow :=
  let updated := table.map (rtApplyUpdate customer_id key value)
  if table.countP (rtRowChanged customer_id key value) = 0 then
    updated ++ [⟨customer_id, key, value⟩]
  else
    updated

lemma rtApplyUpdate_matches (customer_id : Int) (key value : String)
    (r : RealtimeInfoRow) :
    rtRowMatches customer_id key (rtApplyUpdate customer_id key value r) =
      rtRowMatches customer_id key r := by
  unfold rtApplyUpdate
  split <;> simp [rtRowMatches]

lemma rtApplyUpdate_value (customer_id : Int) (key value : String)
    (r : RealtimeInfoRow) (h : rtRowMatches customer_id key r = true) :
    (rtApplyUpdate customer_id key value r).info_value = value := by
  simp [rtApplyUpdate, h]

lemma rtApplyUpdate_id (customer_id : Int) (key value : String)
    (r : RealtimeInfoRow) (h : rtRowMatches customer_id key r = false) :
    rtApplyUpdate customer_id key value r = r := by
  simp [rtApplyUpdate, h]

lemma rtApplyUpdate_same (customer_id : Int) (key value : String)
    (r : RealtimeInfoRow) (h : r.info_value = value) :
    rtApplyUpdate customer_id key value r = r := by
  cases r with
  | mk cid k v =>
      simp only [rtApplyUpdate]
      split
      · simp_all
      · rfl

/-- Rewriting every row through the UPDATE is the identity whenever every
matched row already stores the new value. -/
lemma rtMap_id_of_unchanged (table : List RealtimeInfoRow)
    (customer_id : Int) (key value : String)
    (hsame : ∀ r ∈ table, rtRowMatches customer_id key r = true →
      r.info_value = value) :
    table.map (rtApplyUpdate customer_id key value) = table := by
  conv_rhs => rw [← List.map_id table]
  refine List.map_congr_left fun a ha => ?_
  rcases hb : rtRowMatches customer_id key a with _ | _
  · simpa using rtApplyUpdate_id customer_id key value a hb
  · simpa using rtApplyUpdate_same customer_id key value a (hsame a ha hb)

/-- Counterexample for C6: the pair `(1, "name")` already exists with value
"a", yet upserting `(1, "name", "a")` leaves the UPDATE with zero *changed*
rows, so the INSERT runs anyway: the result is a duplicate row and a row
count of 2, not an in-place update with the row count unchanged. -/
theorem upsert_duplicate_on_unchanged_value :
    upsert_customer_realtime_information [⟨1, "name", "a"⟩] 1 "name" "a" =
      [⟨1, "name", "a"⟩, ⟨1, "name", "a"⟩] ∧
    (upsert_customer_realtime_information [⟨1, "name", "a"⟩] 1 "name" "a").length
        = 2 :=
  ⟨by decide, by decide⟩

/-- C6 (amended): if some row with the `(customer, key)` pair stores a value
different from the new one, the UPDATE rewrites in place — row count
unchanged, every matching row ends up holding the new value, non-matching
rows untouched; if no row matches the pair, exactly one new row is appended;
but if matching rows exist and all already store the new value, the UPDATE
reports zero changed rows and the INSERT appends a duplicate row. -/
theorem upsert_realtime_information_semantics (table : List RealtimeInfoRow)
    (customer_id : Int) (key value : String) :
    ((∃ r ∈ table, rtRowChanged customer_id key value r) →
      (upsert_customer_realtime_information table customer_id key value).length
          = table.length ∧
      (∀ r ∈ upsert_customer_realtime_information table customer_id key value,
          rtRowMatches customer_id key r → r.info_value = value) ∧
      (∀ r ∈ upsert_customer_realtime_information table customer_id key value,
          ¬ rtRowMatches customer_id key r → r ∈ table)) ∧
    ((∀ r ∈ table, ¬ rtRowMatches customer_id key r) →
      upsert_customer_realtime_information table customer_id key value =
        table ++ [⟨customer_id, key, value⟩]) ∧
    ((∀ r ∈ table, rtRowMatches customer_id key r = true →
        r.info_value = value) →
      upsert_customer_realtime_information table customer_id key value =
        table ++ [⟨customer_id, key, value⟩]) := by
  refine ⟨?_, ?_, ?_⟩
  · intro hex
    have hcount : ¬ table.countP (rtRowChanged customer_id key value) = 0 := by
      have hpos : 0 < table.countP (rtRowChanged customer_id key value) :=
        List.countP_pos_iff.mpr hex
      omega
    simp only [upsert_customer_realtime_information, hcount, if_false]
    refine ⟨List.length_map _ _, ?_, ?_⟩
    · intro r hr hmr
      rcases List.mem_map.mp hr with ⟨a, _, ha⟩
      rcases hma : rtRowMatches customer_id key a with _ | _
      · rw [rtApplyUpdate_id _ _ _ _ hma] at ha
        rw [← ha, hma] at hmr
        exact absurd hmr (by simp)
      · rw [← ha]
        exact rtApplyUpdate_value _ _ _ _ hma
    · intro r hr hmr
      rcases List.mem_map.mp hr with ⟨a, haT, ha⟩
      rcases hma : rtRowMatches customer_id key a with _ | _
      · rw [rtApplyUpdate_id _ _ _ _ hma] at ha
        exact ha ▸ haT
      · have : rtRowMatches customer_id key r = true := by
          rw [← ha, rtApplyUpdate_matches, hma]
        exact absurd this hmr
  · intro hall
    have hcount : table.countP (rtRowChanged customer_id key value) = 0 :=
      List.countP_eq_zero.mpr fun a ha => by
        simp [rtRowChanged, hall a ha]
    simp only [upsert_customer_realtime_information, hcount, if_true]
    congr 1
    exact rtMap_id_of_unchanged table customer_id key value
      fun a ha hm => absurd hm (hall a ha)
  · intro hsame
    have hcount : table.countP (rtRowChanged customer_id key value) = 0 :=
      List.countP_eq_zero.mpr fun a ha => by
        rcases hb : rtRowMatches customer_id key a with _ | _
        · simp [rtRowChanged, hb]
        · simp [rtRowChanged, hb, hsame a ha hb]
    simp only [upsert_customer_realtime_information, hcount, if_true]
    congr 1
    exact rtMap_id_of_unchanged table customer_id key value hsame

/-- Witness for C6 (amended): all three branches at concrete tables. -/
theorem upsert_realtime_information_semantics_witness :
    (upsert_customer_realtime_information [⟨1, "name", "a"⟩] 1 "name" "b").length = 1 ∧
    upsert_customer_realtime_information [⟨1, "name", "a"⟩] 1 "age" "b" =
      [⟨1, "name", "a"⟩] ++ [⟨1, "age", "b"⟩] ∧
    upsert_customer_realtime_information [⟨1, "name", "a"⟩] 1 "name" "a" =
      [⟨1, "name", "a"⟩] ++ [⟨1, "name", "a"⟩] :=
  ⟨((upsert_realtime_information_semantics [⟨1, "name", "a"⟩] 1 "name" "b").1
      ⟨⟨1, "name", "a"⟩, by decide, by decide⟩).1,
    (upsert_realtime_information_semantics [⟨1, "name", "a"⟩] 1 "age" "b").2.1
      (by decide),
    (upsert_realtime_information_semantics [⟨1, "name", "a"⟩] 1 "name" "a").2.2
      (by decide)⟩

/-! ## Lead-form creation (db_queries.py, lines 366–449)

`create_user_lead_form` wraps a `user_lead` header insert and one
`user_lead_value` insert per form item in a single transaction; any failure
rolls the whole transaction back and re-raises.  A failing value insert is
injected through the `failAt` index parameter.  The AUTO_INCREMENT id
assigned to the header is always positive, so the source's falsy-`lastrowid`
branch cannot fire in the model. -/

structure UserLeadRow where
  user_lead_id : Nat
  user_session_id : Int
  chat_bot_id : Int
  chat_bot_lead_form_id : Int
  conversation_id : Int
deriving Repr, DecidableEq

structure UserLeadValueRow where
  user_lead_id : Nat
  lable : String
  value : String
deriving Repr, DecidableEq

structure FormItem where
  lable : String
  value : String
deriving Repr, DecidableEq

structure UserLeadDto where
  user_session_id : Int
  chat_bot_lead_form_id : Int
  conversation_id : Int
  form : List FormItem
deriving Repr, DecidableEq

structure LeadDB where
  user_lead : List UserLeadRow
  user_lead_value : List UserLeadValueRow
deriving Repr, DecidableEq

/-- Next AUTO_INCREMENT `user_lead_id` (1 + current maximum). -/
def nextLeadId (db : LeadDB) : Nat :=
  (db.user_lead.map (·.user_lead_id)).foldr max 0 + 1

/-- The value-insert loop; `failAt = some i` makes the i-th INSERT raise. -/
def insertLeadValues (items : List FormItem) (idx : Nat) (user_lead_id : Nat)
    (failAt : Option Nat) (acc : LeadDB) : Except Unit LeadDB :=
  match items with
  | [] => .ok acc
  | item :: rest =>
      if failAt = some idx then .error ()
      else
        insertLeadValues rest (idx + 1) user_lead_id failAt
          { acc with user_lead_value :=
              acc.user_lead_value ++ [⟨user_lead_id, item.lable, item.value⟩] }

/-- `create_user_lead_form`: header insert, then the value inserts, inside
one transaction.  On failure the rollback restores the caller-visible
database to its original state and the exception is re-raised (`.error`);
on success the committed state and `True` are returned. -/
def create_user_lead_form (db : LeadDB) (chat_bot_id : Int) (dto : UserLeadDto)
    (failAt : Option Nat) : LeadDB × Except Unit Bool :=
  let user_lead_id := nextLeadId db
  let afterHeader : LeadDB :=
    { db with user_lead := db.user_lead ++
        [⟨user_lead_id, dto.user_session_id, chat_bot_id,
          dto.chat_bot_lead_form_id, dto.conversation_id⟩] }
  match insertLeadValues dto.form 0 user_lead_id failAt afterHeader with
  | .ok committed => (committed, .ok true)
  | .error _ => (db, .error ())

/-- `is_lead_already_exists` (lines 418–449). -/
def is_lead_already_exists (db : LeadDB) (chat_bot_id lead_form_id
    user_session_id conversation_id : Int) : Bool :=
  db.user_lead.any fun r =>
    r.chat_bot_id == chat_bot_id && r.chat_bot_lead_form_id == lead_form_id &&
      r.conversation_id == conversation_id && r.user_session_id == user_session_id

lemma insertLeadValues_error (items : List FormItem) (idx : Nat)
    (user_lead_id : Nat) (i : Nat) (acc : LeadDB)
    (hlo : idx ≤ i) (hhi : i < idx + items.length) :
    insertLeadValues items idx user_lead_id (some i) acc = .error () := by
  induction items generalizing idx acc with
  | nil => simp at hhi; omega
  | cons item rest ih =>
      unfold insertLeadValues
      by_cases hidx : i = idx
      · simp [hidx]
      · have : ¬ (some i = some idx) := by simp; omega
        simp only [this, if_false]
        exact ih (idx + 1) _ (by omega) (by simp at hhi ⊢; omega)

lemma insertLeadValues_ok (items : List FormItem) (idx : Nat)
    (user_lead_id : Nat) (acc : LeadDB) :
    insertLeadValues items idx user_lead_id none acc =
      .ok { acc with user_lead_value :=
        acc.user_lead_value ++ items.map (fun it => ⟨user_lead_id, it.lable, it.value⟩) } := by
  induction items generalizing idx acc with
  | nil => simp [insertLeadValues]
  | cons item rest ih =>
      unfold insertLeadValues
      simp only [reduceCtorEq, if_false]
      rw [ih]
      simp

/-- C7: lead-form creation is atomic.  If the i-th field-value insert fails
after the header insert succeeded, the whole transaction (header and all
values) is rolled back and the exception re-raised, so a subsequent
`is_lead_already_exists` check for that (new) lead still returns `False`.
Without a failure, the header row and all N value rows are committed
together. -/
theorem create_user_lead_form_atomic (db : LeadDB) (chat_bot_id : Int)
    (dto : UserLeadDto) (i : Nat)
    (hi : i < dto.form.length)
    (hnew : is_lead_already_exists db chat_bot_id dto.chat_bot_lead_form_id
      dto.user_session_id dto.conversation_id = false) :
    create_user_lead_form db chat_bot_id dto (some i) = (db, .error ()) ∧
    is_lead_already_exists
        (create_user_lead_form db chat_bot_id dto (some i)).1
        chat_bot_id dto.chat_bot_lead_form_id dto.user_session_id
        dto.conversation_id = false ∧
    (create_user_lead_form db chat_bot_id dto none).1.user_lead =
      db.user_lead ++ [⟨nextLeadId db, dto.user_session_id, chat_bot_id,
        dto.chat_bot_lead_form_id, dto.conversation_id⟩] ∧
    (create_user_lead_form db chat_bot_id dto none).1.user_lead_value =
      db.user_lead_value ++
        dto.form.map (fun it => ⟨nextLeadId db, it.lable, it.value⟩) ∧
    (create_user_lead_form db chat_bot_id dto none).2 = .ok true := by
  have herr := insertLeadValues_error dto.form 0 (nextLeadId db) i
    { db with user_lead := db.user_lead ++
        [⟨nextLeadId db, dto.user_session_id, chat_bot_id,
          dto.chat_bot_lead_form_id, dto.conversation_id⟩] }
    (Nat.zero_le i) (by omega)
  have hok := insertLeadValues_ok dto.form 0 (nextLeadId db)
    { db with user_lead := db.user_lead ++
        [⟨nextLeadId db, dto.user_session_id, chat_bot_id,
          dto.chat_bot_lead_form_id, dto.conversation_id⟩] }
  refine ⟨?_, ?_, ?_, ?_, ?_⟩ <;>
    simp [create_user_lead_form, herr, hok, hnew]

/-- Concrete two-field form used in the C7 witness. -/
def dtoC7 : UserLeadDto :=
  { user_session_id := 10
    chat_bot_lead_form_id := 3
    conversation_id := 77
    form := [⟨"name", "n"⟩, ⟨"email", "e"⟩] }

/-- Witness for C7: the second value insert fails on an empty database. -/
theorem create_user_lead_form_atomic_witness :
    create_user_lead_form ⟨[], []⟩ 5 dtoC7 (some 1) = (⟨[], []⟩, .error ()) ∧
    is_lead_already_exists (create_user_lead_form ⟨[], []⟩ 5 dtoC7 (some 1)).1
      5 dtoC7.chat_bot_lead_form_id dtoC7.user_session_id
      dtoC7.conversation_id = false ∧
    (create_user_lead_form ⟨[], []⟩ 5 dtoC7 none).1.user_lead =
      [] ++ [⟨nextLeadId ⟨[], []⟩, dtoC7.user_session_id, 5,
        dtoC7.chat_bot_lead_form_id, dtoC7.conversation_id⟩] ∧
    (create_user_lead_form ⟨[], []⟩ 5 dtoC7 none).1.user_lead_value =
      [] ++ dtoC7.form.map (fun it => ⟨nextLeadId ⟨[], []⟩, it.lable, it.value⟩) ∧
    (create_user_lead_form ⟨[], []⟩ 5 dtoC7 none).2 = .ok true :=
  create_user_lead_form_atomic ⟨[], []⟩ 5 dtoC7 1 (by decide) (by decide)

/-! ## Content retrieval adapter (tools/rag_tools.py)

`get_rag_information_from_vector_store` detects page-specific queries with
`re.search(r'(?:page|pg)(?:\s+(?:no|number|num))?\s*(\d+)', message,
re.IGNORECASE)`.  The pattern is embedded as a specialized backtracking
matcher over the message's character list:

* the alternatives `page` and `pg` are mutually exclusive at any position
  (they differ at their second character), so the ordered alternation needs
  no backtracking across them;
* the qualifier alternatives `no`, `number`, `num` all start with a
  non-whitespace character, so `\s+` can only consume the maximal whitespace
  run, and likewise `\s*` before the digits — the remaining backtracking
  (trying each qualifier, then dropping the optional group) is explicit;
* `re.search` takes the leftmost position at which a match exists.

The messages involved are ASCII, so `\s`/`\d` are embedded as their ASCII
classes. -/

def isSpaceChar (c : Char) : Bool :=
  c = ' ' || c = '\t' || c = '\n' || c = '\r' || c = '\x0b' || c = '\x0c'

def isDigitChar (c : Char) : Bool :=
  '0' ≤ c && c ≤ '9'

/-- Case-insensitive literal: when `pat` (given lower-case) is a prefix of
`s` modulo `Char.toLower`, return the remainder of `s`. -/
def matchLitCI : List Char → List Char → Option (List Char)
  | [], s => some s
  | _ :: _, [] => none
  | p :: ps, c :: cs => if c.toLower = p then matchLitCI ps cs else none

/-- `\s*(\d+)`: skip the whitespace run, require at least one digit, return
`int(group(1))` of the maximal digit run. -/
def matchTailDigits (s : List Char) : Option Nat :=
  let s1 := s.dropWhile isSpaceChar
  let ds := s1.takeWhile isDigitChar
  if ds.isEmpty then none
  else some (ds.foldl (fun acc c => 10 * acc + (c.toNat - 48)) 0)

/-- `(?:\s+(?:no|number|num))?\s*(\d+)` after the keyword, with the ordered
alternation and group-skip backtracking spelled out. -/
def matchAfterKeyword (s : List Char) : Option Nat :=
  let groupAttempt : Option Nat :=
    match s with
    | [] => none
    | c :: _ =>
        if isSpaceChar c then
          let s1 := s.dropWhile isSpaceChar
          (matchLitCI ['n', 'o'] s1 >>= matchTailDigits) <|>
            (matchLitCI ['n', 'u', 'm', 'b', 'e', 'r'] s1 >>= matchTailDigits) <|>
              (matchLitCI ['n', 'u', 'm'] s1 >>= matchTailDigits)
        else none
  groupAttempt <|> matchTailDigits s

/-- One attempt of the whole pattern at the current position. -/
def matchPatternAt (s : List Char) : Option Nat :=
  match matchLitCI ['p', 'a', 'g', 'e'] s with
  | some rest => matchAfterKeyword rest
  | none =>
      match matchLitCI ['p', 'g'] s with
      | some rest => matchAfterKeyword rest
      | none => none

/-- `re.search`: the leftmost position at which the pattern matches. -/
def pageSearch : List Char → Option Nat
  | [] => none
  | c :: rest =>
      match matchPatternAt (c :: rest) with
      | some n => some n
      | none => pageSearch rest

/-- Stored page metadata of a chunk: Pinecone metadata holds a number or a
string (the stored type is inconsistent), or is absent. -/
inductive PageMeta
  | num (n : Int)
  | str (s : String)
deriving Repr, DecidableEq

structure Doc where
  page_content : String
  page : Option PageMeta
deriving Repr, DecidableEq

/-- A similarity result: document plus score (the score is never inspected). -/
abbrev ScoredDoc := Doc × Int

/-- `doc_page == requested_page or doc_page == str(requested_page)`; a
missing page compares unequal to both. -/
def pageMatches (requested : Nat) (p : Option PageMeta) : Bool :=
  match p with
  | some (.num i) => i == (requested : Int)
  | some (.str s) => s == toString requested
  | none => false

structure RagResult where
  results : List ScoredDoc
  page : Option PageMeta
  is_page_specific : Bool
deriving Repr, DecidableEq

/-- `get_rag_information_from_vector_store` (lines 11–85): the similarity
backend is an oracle from the requested `k` to an exception or the scored
result list; a backend exception propagates (`raise error`). -/
def get_rag_information_from_vector_store
    (backend : Nat → Except String (List ScoredDoc))
    (message : String) (top_k : Nat) : Except String RagResult :=
  match pageSearch message.data with
  | some requested_page =>
      match backend 20 with
      | .error e => .error e
      | .ok all_results =>
          .ok { results := all_results.filter
                  (fun dp => pageMatches requested_page dp.1.page),
                page := some (.num requested_page),
                is_page_specific := true }
  | none =>
      match backend top_k with
      | .error e => .error e
      | .ok results =>
          .ok { results := results,
                page := match results with | [] => none | (d, _) :: _ => d.page,
                is_page_specific := false }

/-- Concrete top-20 neighbour set used for C5: page 3 stored as a number,
page 3 stored as a string, page 4, and a chunk with no page metadata. -/
def docPage3Num : ScoredDoc := (⟨"alpha", some (.num 3)⟩, 90)

def docPage3Str : ScoredDoc := (⟨"beta", some (.str "3")⟩, 80)

def docPage4 : ScoredDoc := (⟨"gamma", some (.num 4)⟩, 70)

def docNoPage : ScoredDoc := (⟨"delta", none⟩, 60)

def docsC5 : List ScoredDoc := [docPage3Num, docPage3Str, docPage4, docNoPage]

/-- C5: a message matching the page pattern makes the adapter fetch the top
20 neighbours and return exactly those whose stored page equals the requested
page as a number or as its string form, tagged page-specific; any other
message returns the plain `top_k` neighbours with the first result's page and
`is_page_specific = false`.  Concretely, "what's on page 3?" is detected with
page 3 and the filter keeps exactly the two page-3 chunks of `docsC5`. -/
theorem rag_page_query_semantics :
    (∀ backend : Nat → Except String (List ScoredDoc),
      ∀ (msg : String) (k n : Nat) (results : List ScoredDoc),
        pageSearch msg.data = some n →
        backend 20 = .ok results →
        get_rag_information_from_vector_store backend msg k =
          .ok ⟨results.filter (fun dp => pageMatches n dp.1.page),
            some (.num n), true⟩) ∧
    (∀ backend : Nat → Except String (List ScoredDoc),
      ∀ (msg : String) (k : Nat) (results : List ScoredDoc),
        pageSearch msg.data = none →
        backend k = .ok results →
        get_rag_information_from_vector_store backend msg k =
          .ok ⟨results,
            (match results with | [] => none | (d, _) :: _ => d.page), false⟩) ∧
    pageSearch (String.data "what's on page 3?") = some 3 ∧
    pageSearch (String.data "tell me about pricing") = none ∧
    docsC5.filter (fun dp => pageMatches 3 dp.1.page) =
      [docPage3Num, docPage3Str] := by
  refine ⟨?_, ?_, by decide, by decide, by decide⟩
  · intro backend msg k n results hsearch hbackend
    simp only [get_rag_information_from_vector_store, hsearch, hbackend]
  · intro backend msg k results hsearch hbackend
    simp only [get_rag_information_from_vector_store, hsearch, hbackend]

/-- Witness for C5: the page-specific branch end-to-end on `docsC5`. -/
theorem rag_page_query_semantics_witness :
    get_rag_information_from_vector_store (fun _ => .ok docsC5)
        "what's on page 3?" 1 =
      .ok ⟨docsC5.filter (fun dp => pageMatches 3 dp.1.page),
        some (.num 3), true⟩ :=
  rag_page_query_semantics.1 (fun _ => .ok docsC5) "what's on page 3?" 1 3 docsC5
    (by decide) rfl

/-! ## Knowledge-base tool (utils/common.py, `search_knowledge_base`)

The tool reads the process-wide Runtime Context (`_RUNTIME`); its frontend
notifications are fire-and-forget and elided.  The embedded function returns
the reply string together with a flag recording whether the retrieval backend
was invoked; its total type is the "never raises into the session loop"
guarantee. -/

structure Runtime where
  roomPresent : Bool
  nspace : Option String
  index_name : Option String
  customer_id : Option Int

/-- Python truthiness of an optional string (`None` and `""` are falsy). -/
def truthyStr (x : Option String) : Bool :=
  match x with
  | some s => s ≠ ""
  | none => false

/-- Python `str.strip()` on ASCII whitespace. -/
def stripStr (s : String) : String :=
  ⟨((s.data.dropWhile isSpaceChar).reverse.dropWhile isSpaceChar).reverse⟩

/-- The query-recovery rule: use the argument when non-empty after
stripping, else the most recent non-empty user chat message, else `""`. -/
def effectiveQuery (query : Option String) (userHistory : List String) : String :=
  let q := stripStr (query.getD "")
  if q = "" then
    match userHistory.reverse.find? (fun t => t ≠ "") with
    | some t => t
    | none => ""
  else q

/-- `search_knowledge_base` (lines 124–174). -/
def search_knowledge_base (rt : Runtime)
    (backend : Nat → Except String (List ScoredDoc))
    (query : Option String) (userHistory : List String) : String × Bool :=
  let effective_query := effectiveQuery query userHistory
  if effective_query = "" then
    ("Please specify what to search for in the knowledge base.", false)
  else if !(truthyStr rt.nspace) || !(truthyStr rt.index_name) then
    ("Knowledge base is not configured yet. I'll answer with general knowledge instead.",
      false)
  else
    match get_rag_information_from_vector_store backend effective_query 1 with
    | .error _ =>
        ("Error accessing KB. Falling back to general knowledge on '" ++
          effective_query ++ "'.", true)
    | .ok kb =>
        match kb.results with
        | (doc, _) :: _ =>
            if doc.page_content ≠ "" then
              ("Based on your query:\n\n" ++ doc.page_content, true)
            else
              ("No specific info about '" ++ effective_query ++
                "' in KB. Falling back to general knowledge.", true)
        | [] =>
            ("No specific info about '" ++ effective_query ++
              "' in KB. Falling back to general knowledge.", true)

/-- C8: with no configured namespace or index the tool returns the explicit
"not configured" string and never invokes the retrieval backend; a backend
exception is caught and converted into a fallback string naming the query;
and `get_rag_information_from_vector_store` itself is the one place that
propagates the backend exception. -/
theorem search_knowledge_base_never_raises :
    (∀ (rt : Runtime) (backend : Nat → Except String (List ScoredDoc))
        (query : Option String) (hist : List String),
        effectiveQuery query hist ≠ "" →
        (truthyStr rt.nspace = false ∨ truthyStr rt.index_name = false) →
        search_knowledge_base rt backend query hist =
          ("Knowledge base is not configured yet. I'll answer with general knowledge instead.",
            false)) ∧
    (∀ (rt : Runtime) (backend : Nat → Except String (List ScoredDoc))
        (query : Option String) (hist : List String) (e : String),
        effectiveQuery query hist ≠ "" →
        truthyStr rt.nspace = true → truthyStr rt.index_name = true →
        get_rag_information_from_vector_store backend
          (effectiveQuery query hist) 1 = .error e →
        search_knowledge_base rt backend query hist =
          ("Error accessing KB. Falling back to general knowledge on '" ++
            effectiveQuery query hist ++ "'.", true)) ∧
    (∀ (backend : Nat → Except String (List ScoredDoc)) (msg : String)
        (k : Nat) (e : String),
        backend 20 = .error e → backend k = .error e →
        get_rag_information_from_vector_store backend msg k = .error e) := by
  refine ⟨?_, ?_, ?_⟩
  · intro rt backend query hist hq hcfg
    have : (!(truthyStr rt.nspace) || !(truthyStr rt.index_name)) = true := by
      rcases hcfg with h | h <;> simp [h]
    simp only [search_knowledge_base, hq, if_false, this, if_true]
  · intro rt backend query hist e hq hns hidx herr
    simp only [search_knowledge_base, hq, if_false, hns, hidx, herr]
    simp
  · intro backend msg k e h20 hk
    unfold get_rag_information_from_vector_store
    cases hps : pageSearch msg.data <;> simp [h20, hk]

/-- Witness for C8: a concrete unconfigured runtime and a concrete erroring
backend. -/
theorem search_knowledge_base_never_raises_witness :
    search_knowledge_base ⟨true, none, none, some 1⟩ (fun _ => .error "boom")
        (some "hello") [] =
      ("Knowledge base is not configured yet. I'll answer with general knowledge instead.",
        false) ∧
    search_knowledge_base ⟨true, some "ns", some "idx", some 1⟩
        (fun _ => .error "boom") (some "hello") [] =
      ("Error accessing KB. Falling back to general knowledge on '" ++
        effectiveQuery (some "hello") [] ++ "'.", true) ∧
    get_rag_information_from_vector_store (fun _ => .error "boom") "hello" 1 =
      .error "boom" :=
  have h := search_knowledge_base_never_raises
  ⟨h.1 ⟨true, none, none, some 1⟩ (fun _ => .error "boom") (some "hello") []
      (by decide) (Or.inl rfl),
    h.2.1 ⟨true, some "ns", some "idx", some 1⟩ (fun _ => .error "boom")
      (some "hello") [] "boom" (by decide) rfl rfl rfl,
    h.2.2 (fun _ => .error "boom") "hello" 1 "boom" rfl rfl⟩

end LivekitTelephony
